import Mathlib

/-!
Verification development for the flight-assistant backend pipeline.

The definitions below are a shallow embedding of the JavaScript sources:
* `src/unnamed/part_002` (first document): the LLM service —
  `analyzeQuestionForMode`, `generateAnswer`, `isValidQuestion`,
  `sanitizeQuestion`.
* `src/unnamed/part_002` (second document): the flight-API service —
  `getAirportSchedule`, `getDayLabel`, `processFlightData`,
  `isValidAirportCode`, `getAirportName`.
* `src/backend/src/routes/flights.js`: validation middleware and the
  `POST /api/flights/query` handler.

External network calls (the upstream flight API and the LLM completion
API) are modelled as oracle arguments: the embedded functions receive the
outcome each HTTP call would have produced and are only allowed to look at
an oracle when the JavaScript code would actually have issued that call.
JavaScript optional values (`undefined` / `null` / missing fields) are
modelled with `Option`, and the `||` fallback operator on strings is
modelled by `jsOr` / `jsOrD`, which treat `none` and `""` as falsy exactly
as JavaScript does.
-/

namespace FlightApp

/-! ## JavaScript semantics helpers -/

/-- Truthiness of a JS string value: `undefined`, `null` and `""` are falsy. -/
def jsTruthy : Option String → Bool
  | none => false
  | some s => !(s == "")

/-- `a || b` for JS string values (`a`, `b` possibly `undefined`). -/
def jsOr (a b : Option String) : Option String :=
  if jsTruthy a then a else b

/-- `a || d` where the final fallback `d` is a string literal. -/
def jsOrD (a : Option String) (d : String) : String :=
  if jsTruthy a then a.getD d else d

/-- `sub.isPrefixOf`-based substring test on char lists. -/
def listIncl (sub : List Char) : List Char → Bool
  | [] => sub.isEmpty
  | c :: t => sub.isPrefixOf (c :: t) || listIncl sub t

/-- JS `String.prototype.includes`. -/
def strIncludes (s sub : String) : Bool :=
  listIncl sub.toList s.toList

/-- JS `toLowerCase` (ASCII, like the `\\w`-oriented code paths need). -/
def jsToLower (s : String) : String := String.mk (s.data.map Char.toLower)

/-- JS `toUpperCase` (ASCII). -/
def jsToUpper (s : String) : String := String.mk (s.data.map Char.toUpper)

/-- JS `trim`. -/
def jsTrim (s : String) : String :=
  String.mk (((s.data.dropWhile Char.isWhitespace).reverse.dropWhile Char.isWhitespace).reverse)

/-- JS `substring(0, n)`. -/
def jsTake (s : String) (n : Nat) : String := String.mk (s.data.take n)

/-! ## Data model: upstream flight records

Shapes mirror the nested optional JSON the FlightAPI `/schedule` endpoint
returns, as accessed by `processFlightData` (optional chaining at every
hop). -/

structure Country where
  name : Option String
  code : Option String
  deriving DecidableEq

structure Position where
  country : Option Country
  deriving DecidableEq

structure CodeBlock where
  iata : Option String
  deriving DecidableEq

/-- Counterpart airport descriptor (`airport.origin` / `airport.destination`). -/
structure CounterAirport where
  position : Option Position
  name : Option String
  code : Option CodeBlock
  deriving DecidableEq

structure AirportPair where
  origin : Option CounterAirport
  destination : Option CounterAirport
  deriving DecidableEq

structure AirlineBlock where
  name : Option String
  code : Option CodeBlock
  deriving DecidableEq

structure IdentNumber where
  default : Option String
  deriving DecidableEq

structure Identification where
  number : Option IdentNumber
  callsign : Option String
  deriving DecidableEq

structure TimePair where
  departure : Option Int
  arrival : Option Int
  deriving DecidableEq

structure TimeBlock where
  scheduled : Option TimePair
  real : Option TimePair
  deriving DecidableEq

structure StatusBlock where
  text : Option String
  deriving DecidableEq

structure AircraftModel where
  text : Option String
  deriving DecidableEq

structure Aircraft where
  model : Option AircraftModel
  registration : Option String
  deriving DecidableEq

/-- The inner `flight.flight` object. -/
structure Flight where
  airport : Option AirportPair
  airline : Option AirlineBlock
  identification : Option Identification
  time : Option TimeBlock
  status : Option StatusBlock
  aircraft : Option Aircraft
  deriving DecidableEq

/-- One element of the upstream `...schedule.arrivals.data` array; the code
guards every record with `if (flight.flight)`. -/
structure FlightWrapper where
  flight : Option Flight
  deriving DecidableEq

/-! ## Key resolution (part_002 lines 655-669 / 706-720) -/

def arrOrigin (fl : Flight) : Option CounterAirport :=
  fl.airport.bind AirportPair.origin

def depDest (fl : Flight) : Option CounterAirport :=
  fl.airport.bind AirportPair.destination

def countryNameOf (a : Option CounterAirport) : Option String :=
  ((a.bind CounterAirport.position).bind Position.country).bind Country.name

def countryCodeOf (a : Option CounterAirport) : Option String :=
  ((a.bind CounterAirport.position).bind Position.country).bind Country.code

def airportNameOf (a : Option CounterAirport) : Option String :=
  a.bind CounterAirport.name

def airportIataOf (a : Option CounterAirport) : Option String :=
  (a.bind CounterAirport.code).bind CodeBlock.iata

/-- `position?.country?.name || position?.country?.code || 'Unknown Country'`. -/
def countryKeyOf (a : Option CounterAirport) : String :=
  jsOrD (jsOr (countryNameOf a) (countryCodeOf a)) "Unknown Country"

/-- `airport?.name || airport?.code?.iata || 'Unknown City'`. -/
def cityKeyOf (a : Option CounterAirport) : String :=
  jsOrD (jsOr (airportNameOf a) (airportIataOf a)) "Unknown City"

/-- `airline?.name || airline?.code?.iata || 'Unknown Airline'`. -/
def airlineKeyOf (fl : Flight) : String :=
  jsOrD (jsOr (fl.airline.bind AirlineBlock.name)
      ((fl.airline.bind AirlineBlock.code).bind CodeBlock.iata)) "Unknown Airline"

/-- `identification?.number?.default || identification?.callsign`. -/
def flightNumberOf (fl : Flight) : Option String :=
  jsOr ((fl.identification.bind Identification.number).bind IdentNumber.default)
    (fl.identification.bind Identification.callsign)

def statusTextOf (fl : Flight) : Option String :=
  fl.status.bind StatusBlock.text

/-- `aircraft?.model?.text || aircraft?.registration`. -/
def aircraftTextOf (fl : Flight) : Option String :=
  jsOr ((fl.aircraft.bind Aircraft.model).bind AircraftModel.text)
    (fl.aircraft.bind Aircraft.registration)

def schedDepartureOf (fl : Flight) : Option Int :=
  (fl.time.bind TimeBlock.scheduled).bind TimePair.departure

def realDepartureOf (fl : Flight) : Option Int :=
  (fl.time.bind TimeBlock.real).bind TimePair.departure

def schedArrivalOf (fl : Flight) : Option Int :=
  (fl.time.bind TimeBlock.scheduled).bind TimePair.arrival

def realArrivalOf (fl : Flight) : Option Int :=
  (fl.time.bind TimeBlock.real).bind TimePair.arrival

/-! ## Per-flight detail records pushed into the groupings -/

/-- Detail pushed into a by-country group (part_002 lines 675-683 / 726-734). -/
structure CountryDetail where
  city : String
  airline : String
  flightNumber : Option String
  scheduledTime : Option Int
  actualTime : Option Int
  status : Option String
  aircraft : Option String
  deriving DecidableEq

/-- Detail pushed into a by-city group (part_002 lines 689-695 / 740-746). -/
structure CityDetail where
  country : String
  airline : String
  flightNumber : Option String
  scheduledTime : Option Int
  status : Option String
  deriving DecidableEq

def arrCountryDetail (fl : Flight) : CountryDetail :=
  { city := cityKeyOf (arrOrigin fl), airline := airlineKeyOf fl,
    flightNumber := flightNumberOf fl, scheduledTime := schedDepartureOf fl,
    actualTime := realDepartureOf fl, status := statusTextOf fl,
    aircraft := aircraftTextOf fl }

def arrCityDetail (fl : Flight) : CityDetail :=
  { country := countryKeyOf (arrOrigin fl), airline := airlineKeyOf fl,
    flightNumber := flightNumberOf fl, scheduledTime := schedDepartureOf fl,
    status := statusTextOf fl }

def depCountryDetail (fl : Flight) : CountryDetail :=
  { city := cityKeyOf (depDest fl), airline := airlineKeyOf fl,
    flightNumber := flightNumberOf fl, scheduledTime := schedArrivalOf fl,
    actualTime := realArrivalOf fl, status := statusTextOf fl,
    aircraft := aircraftTextOf fl }

def depCityDetail (fl : Flight) : CityDetail :=
  { country := countryKeyOf (depDest fl), airline := airlineKeyOf fl,
    flightNumber := flightNumberOf fl, scheduledTime := schedArrivalOf fl,
    status := statusTextOf fl }

/-! ## Insertion-ordered maps and sets

A JS `Map` with `if (!m.has(k)) m.set(k, []); m.get(k).push(v)` is an
insertion-ordered association list with unique keys; a JS `Set.add` keeps
first-insertion order. -/

def pushGroup {α : Type} : List (String × List α) → String → α → List (String × List α)
  | [], k, v => [(k, [v])]
  | (k2, l) :: rest, k, v =>
    if k2 = k then (k2, l ++ [v]) :: rest else (k2, l) :: pushGroup rest k v

def setAdd (s : List String) (x : String) : List String :=
  if x ∈ s then s else s ++ [x]

def setUnion (a b : List String) : List String :=
  (a ++ b).foldl setAdd []

/-- Total number of detail records across all groups of a grouping. -/
def sumCounts {α : Type} (m : List (String × List α)) : Nat :=
  (m.map fun p => p.2.length).sum

/-! ## The aggregation loops of `processFlightData` (part_002 lines 647-780) -/

/-- Mutable state of one direction's `forEach` loop. -/
structure DirState where
  byCountry : List (String × List CountryDetail)
  byCity : List (String × List CityDetail)
  airlines : List String
  deriving DecidableEq

/-- Body of `arrivals.forEach(flight => ...)` (part_002 lines 655-699). -/
def processArrivalsStep (s : DirState) (w : FlightWrapper) : DirState :=
  match w.flight with
  | none => s
  | some fl =>
    { byCountry := pushGroup s.byCountry (countryKeyOf (arrOrigin fl)) (arrCountryDetail fl),
      byCity := pushGroup s.byCity (cityKeyOf (arrOrigin fl)) (arrCityDetail fl),
      airlines := setAdd s.airlines (airlineKeyOf fl) }

/-- Body of `departures.forEach(flight => ...)` (part_002 lines 706-750). -/
def processDeparturesStep (s : DirState) (w : FlightWrapper) : DirState :=
  match w.flight with
  | none => s
  | some fl =>
    { byCountry := pushGroup s.byCountry (countryKeyOf (depDest fl)) (depCountryDetail fl),
      byCity := pushGroup s.byCity (cityKeyOf (depDest fl)) (depCityDetail fl),
      airlines := setAdd s.airlines (airlineKeyOf fl) }

/-! ## Raw upstream payload and the fetcher result (part_002 lines 546-640) -/

structure DataNode where
  data : Option (List FlightWrapper)
  deriving DecidableEq

structure ScheduleNode where
  arrivals : Option DataNode
  departures : Option DataNode
  deriving DecidableEq

structure PluginData where
  schedule : Option ScheduleNode
  deriving DecidableEq

structure AirportNode where
  pluginData : Option PluginData
  deriving DecidableEq

/-- One direction's raw FlightAPI response body. -/
structure RawPayload where
  airport : Option AirportNode
  deriving DecidableEq

/-- `rawResult`: per-direction raw payloads, present only if requested. -/
structure RawResult where
  arrivals : Option RawPayload
  departures : Option RawPayload
  deriving DecidableEq

/-- `rawResult.arrivals?.airport?.pluginData?.schedule?.arrivals?.data || []`. -/
def extractArrivals (o : Option RawPayload) : List FlightWrapper :=
  (((((o.bind RawPayload.airport).bind AirportNode.pluginData).bind
    PluginData.schedule).bind ScheduleNode.arrivals).bind DataNode.data).getD []

/-- `rawResult.departures?.airport?.pluginData?.schedule?.departures?.data || []`. -/
def extractDepartures (o : Option RawPayload) : List FlightWrapper :=
  (((((o.bind RawPayload.airport).bind AirportNode.pluginData).bind
    PluginData.schedule).bind ScheduleNode.departures).bind DataNode.data).getD []

/-- An axios failure: optional HTTP status, `ECONNABORTED` flag, `error.message`. -/
structure UpstreamError where
  status : Option Nat
  econnaborted : Bool
  message : String
  deriving DecidableEq

structure ScheduleMetadata where
  totalArrivals : Nat
  totalDepartures : Nat
  fetchedAt : String
  apiEndpoint : String
  paramsMode : String
  paramsIata : String
  paramsDay : Int
  deriving DecidableEq

/-- Result object built by `getAirportSchedule` (part_002 lines 587-605). -/
structure ScheduleResult where
  airport : String
  dayParam : Int
  dayLabel : String
  arrivals : List FlightWrapper
  departures : List FlightWrapper
  rawResult : RawResult
  metadata : ScheduleMetadata
  deriving DecidableEq

/-- `getDayLabel` (part_002 lines 633-640). -/
def getDayLabel (dayParam : Int) : String :=
  if dayParam == -1 then "Yesterday"
  else if dayParam == 1 then "Today"
  else if dayParam == 2 then "Tomorrow"
  else "Today"

/-- Message thrown by `getAirportSchedule`'s catch clause (part_002 lines 611-625). -/
def fetchErrorMessage (airportCode : String) (e : UpstreamError) : String :=
  if e.status == some 401 then "Invalid FlightAPI key. Please check your API configuration."
  else if e.status == some 429 then "FlightAPI rate limit exceeded. Please try again later."
  else if e.status == some 404 then "Airport " ++ airportCode ++ " not found or no data available."
  else if e.econnaborted then "FlightAPI request timeout. Please try again."
  else "Failed to fetch flight data: " ++ e.message

/-- `getAirportSchedule` (part_002 lines 553-626).  The two possible upstream
HTTP calls are passed in as oracles; the returned booleans record whether the
arrivals / departures request was actually issued.  `fetchedAt` stands for
`new Date().toISOString()`. -/
def getAirportSchedule (airportCode : String) (dayParam : Int) (mode : String)
    (arrOracle depOracle : Except UpstreamError RawPayload) (fetchedAt : String) :
    Except String ScheduleResult × Bool × Bool :=
  let validDayParam : Int := if dayParam == 0 then 1 else dayParam
  let arrCall : Bool := mode == "both" || mode == "arrivals"
  let depCall : Bool := mode == "both" || mode == "departures"
  let build : Option RawPayload → Option RawPayload → ScheduleResult := fun arrRaw depRaw =>
    let arrivals := extractArrivals arrRaw
    let departures := extractDepartures depRaw
    let md : ScheduleMetadata :=
      { totalArrivals := arrivals.length, totalDepartures := departures.length,
        fetchedAt := fetchedAt, apiEndpoint := "FlightAPI.io /schedule",
        paramsMode := mode, paramsIata := jsToUpper airportCode, paramsDay := validDayParam }
    { airport := jsToUpper airportCode, dayParam := validDayParam,
      dayLabel := getDayLabel validDayParam,
      arrivals := arrivals, departures := departures,
      rawResult := { arrivals := arrRaw, departures := depRaw },
      metadata := md }
  if arrCall then
    match arrOracle with
    | .error e => (.error (fetchErrorMessage airportCode e), true, false)
    | .ok arrRaw =>
      if depCall then
        match depOracle with
        | .error e => (.error (fetchErrorMessage airportCode e), true, true)
        | .ok depRaw => (.ok (build (some arrRaw) (some depRaw)), true, true)
      else (.ok (build (some arrRaw) none), true, false)
  else
    if depCall then
      match depOracle with
      | .error e => (.error (fetchErrorMessage airportCode e), false, true)
      | .ok depRaw => (.ok (build none (some depRaw)), false, true)
    else (.ok (build none none), false, false)

/-! ## `processFlightData` output shape (part_002 lines 752-779) -/

structure Summary where
  totalArrivals : Nat
  totalDepartures : Nat
  arrivalCountries : Nat
  departureCountries : Nat
  arrivalCities : Nat
  departureCities : Nat
  uniqueAirlines : Nat
  deriving DecidableEq

structure DirectionData where
  byCountry : List (String × List CountryDetail)
  byCity : List (String × List CityDetail)
  airlines : List String
  total : Nat
  deriving DecidableEq

structure ProcessedData where
  airport : String
  dayParam : Int
  dayLabel : String
  summary : Summary
  arrivals : DirectionData
  departures : DirectionData
  metadata : ScheduleMetadata
  rawResult : RawResult
  deriving DecidableEq

/-- `processFlightData` (part_002 lines 647-780). -/
def processFlightData (flightData : ScheduleResult) : ProcessedData :=
  let arrState := flightData.arrivals.foldl processArrivalsStep ⟨[], [], []⟩
  let depState := flightData.departures.foldl processDeparturesStep ⟨[], [], []⟩
  let summ : Summary :=
    { totalArrivals := flightData.arrivals.length,
      totalDepartures := flightData.departures.length,
      arrivalCountries := arrState.byCountry.length,
      departureCountries := depState.byCountry.length,
      arrivalCities := arrState.byCity.length,
      departureCities := depState.byCity.length,
      uniqueAirlines := (setUnion arrState.airlines depState.airlines).length }
  let arrData : DirectionData :=
    { byCountry := arrState.byCountry, byCity := arrState.byCity,
      airlines := arrState.airlines, total := flightData.arrivals.length }
  let depData : DirectionData :=
    { byCountry := depState.byCountry, byCity := depState.byCity,
      airlines := depState.airlines, total := flightData.departures.length }
  { airport := flightData.airport, dayParam := flightData.dayParam,
    dayLabel := flightData.dayLabel, summary := summ,
    arrivals := arrData, departures := depData,
    metadata := flightData.metadata, rawResult := flightData.rawResult }

/-- `isValidAirportCode` (part_002 lines 788-791). -/
def isValidAirportCode (airportCode : String) : Bool :=
  ["DXB", "LHR", "CDG", "SIN", "HKG", "AMS"].contains (jsToUpper airportCode)

/-- `getAirportName` (part_002 lines 798-809). -/
def getAirportName (airportCode : String) : String :=
  if jsToUpper airportCode == "DXB" then "Dubai International Airport"
  else if jsToUpper airportCode == "LHR" then "London Heathrow Airport"
  else if jsToUpper airportCode == "CDG" then "Charles de Gaulle Airport (Paris)"
  else if jsToUpper airportCode == "SIN" then "Singapore Changi Airport"
  else if jsToUpper airportCode == "HKG" then "Hong Kong International Airport"
  else if jsToUpper airportCode == "AMS" then "Amsterdam Airport Schiphol"
  else "Unknown Airport"

/-! ## Mode classifier: `analyzeQuestionForMode` (part_002 lines 60-201) -/

/-- The JSON object the classifier LLM reply parses to (fields may be absent). -/
structure ParsedAnalysis where
  relevant : Option Bool
  mode : Option String
  reasoning : Option String
  confidence : Option String
  shouldSkipAPI : Bool
  deriving DecidableEq

/-- Outcome of the classification LLM interaction, as seen by the code:
the call rejected (outer catch, lines 193-200), the reply could not be
parsed as JSON (inner catch, lines 154-191: includes a missing/undefined
reply text, since `.match` on `undefined` throws inside the inner `try`),
or it parsed to a JSON object. -/
inductive ClassifyOutcome where
  | callError
  | parseFail
  | parsed (a : ParsedAnalysis)
  deriving DecidableEq

/-- The object `analyzeQuestionForMode` resolves with.  Absent JS fields are
`none` (for `relevant`, the error-path default sets none, which the route
later compares with `=== false`). -/
structure ModeAnalysis where
  relevant : Option Bool
  mode : Option String
  reasoning : Option String
  confidence : Option String
  shouldSkipAPI : Bool
  deriving DecidableEq

/-- Keyword fallback of the inner catch (part_002 lines 158-190). -/
def keywordFallback (question : String) : ModeAnalysis :=
  let questionLower := jsToLower question
  let aviationKeywords := ["flight", "airport", "airline", "plane", "aircraft",
    "departure", "arrival", "terminal", "gate", "runway"]
  let isAviationRelated := aviationKeywords.any fun keyword => strIncludes questionLower keyword
  if !isAviationRelated then
    { relevant := some false, mode := some "none",
      reasoning := some "Question does not contain aviation-related keywords",
      confidence := some "medium", shouldSkipAPI := true }
  else
    let fallbackMode :=
      if strIncludes questionLower "fly to" || strIncludes questionLower "go to" ||
          strIncludes questionLower "destination" || strIncludes questionLower "departing" ||
          strIncludes questionLower "leaving" then "departures"
      else if strIncludes questionLower "from" || strIncludes questionLower "arriving" then
        "arrivals"
      else "both"
    { relevant := some true, mode := some fallbackMode,
      reasoning := some ("Keyword-based fallback analysis (" ++ fallbackMode ++ ")"),
      confidence := some "medium", shouldSkipAPI := false }

/-- `analyzeQuestionForMode` (part_002 lines 60-201), with the LLM
interaction abstracted into `outcome`.  The function is total: no branch
propagates an error. -/
def analyzeQuestionForMode (question : String) (outcome : ClassifyOutcome) : ModeAnalysis :=
  match outcome with
  | .callError =>
    { relevant := none, mode := some "arrivals",
      reasoning := some "Default fallback due to analysis error",
      confidence := some "low", shouldSkipAPI := false }
  | .parseFail => keywordFallback question
  | .parsed a =>
    if a.relevant == some false then
      { relevant := some false, mode := some "none", reasoning := a.reasoning,
        confidence := a.confidence, shouldSkipAPI := true }
    else
      { relevant := a.relevant, mode := a.mode, reasoning := a.reasoning,
        confidence := a.confidence, shouldSkipAPI := a.shouldSkipAPI }

/-! ## Answer generator: `generateAnswer` (part_002 lines 212-266) -/

/-- Message thrown by `generateAnswer`'s catch clause (part_002 lines 251-265). -/
def llmErrorMessage (e : UpstreamError) : String :=
  if e.status == some 401 then "Invalid OpenRouter API key. Please check your configuration."
  else if e.status == some 429 then "OpenRouter rate limit exceeded. Please try again later."
  else if e.status == some 402 then "OpenRouter account has insufficient credits."
  else if e.econnaborted then "LLM request timeout. Please try again with a simpler question."
  else "Failed to generate answer: " ++ e.message

/-- `generateAnswer`: the LLM call outcome is the oracle `gen` (its `Option
String` is the first choice's message content, `none` when absent).  A falsy
content throws `No answer generated by LLM` inside the `try`, which the
same catch rewraps through the final else branch.  The prompt-building
arguments are carried but do not influence the control flow. -/
def generateAnswer (_question : String) (_flightData : ProcessedData) (_airport : String)
    (_mode : Option String) (_modeAnalysis : ModeAnalysis)
    (gen : Except UpstreamError (Option String)) : Except String String :=
  match gen with
  | .error e => .error (llmErrorMessage e)
  | .ok content =>
    if jsTruthy content then .ok (jsTrim (content.getD ""))
    else .error ("Failed to generate answer: " ++ "No answer generated by LLM")

/-! ## Question validation and sanitization (part_002 lines 451-494) -/

/-- `isValidQuestion` (part_002 lines 451-477).  `none` models a missing or
non-string argument; `!question` also rejects the empty string. -/
def isValidQuestion (question : Option String) : Bool :=
  match question with
  | none => false
  | some q =>
    if q == "" then false
    else
      let trimmed := jsTrim q
      if trimmed.length < 5 then false
      else if trimmed.length > 500 then false
      else
        let questionWords := ["how", "what", "where", "when", "why", "which",
          "who", "many", "much"]
        let hasQuestionWord := questionWords.any fun word =>
          strIncludes (jsToLower trimmed) word
        let hasQuestionMark := strIncludes trimmed "?"
        hasQuestionWord || hasQuestionMark

/-- `\s+` run collapsing: every whitespace run becomes one space. -/
def collapseGo : Bool → List Char → List Char
  | _, [] => []
  | prevWs, c :: rest =>
    if c.isWhitespace then
      if prevWs then collapseGo true rest else ' ' :: collapseGo true rest
    else c :: collapseGo false rest

/-- Characters kept by the sanitizer: `[\w\s\?\!\.\,\-\(\)]`. -/
def keepChar (c : Char) : Bool :=
  c.isAlphanum || c == '_' || c.isWhitespace || c == '?' || c == '!' ||
    c == '.' || c == ',' || c == '-' || c == '(' || c == ')'

/-- `sanitizeQuestion` (part_002 lines 484-494): trim, collapse whitespace,
strip special characters, cap at 500 characters. -/
def sanitizeQuestion (question : Option String) : String :=
  match question with
  | none => ""
  | some q =>
    if q == "" then ""
    else jsTake (String.mk ((collapseGo false (jsTrim q).data).filter keepChar)) 500

/-! ## Route: validation middleware (flights.js lines 8-56) -/

/-- `req.body` for `POST /api/flights/query`.  `none` models an absent,
`null` or non-string (for `airport`/`question`) respectively non-numeric
field. -/
structure ReqBody where
  airport : Option String
  question : Option String
  date : Option Int
  deriving DecidableEq

/-- Body of a 400 validation response. -/
structure ValidationErrorBody where
  error : String
  code : String
  supportedAirports : Option (List String)
  deriving DecidableEq

/-- The request body after the middleware's sanitization step. -/
structure Sanitized where
  airport : String
  question : String
  date : Option Int
  deriving DecidableEq

def supportedAirportsList : List String := ["DXB", "LHR", "CDG", "SIN", "HKG", "AMS"]

/-- `validateQueryRequest` (flights.js lines 8-56). -/
def validateQueryRequest (b : ReqBody) : Except ValidationErrorBody Sanitized :=
  match b.airport with
  | none =>
    .error ⟨"Airport code is required and must be a string", "INVALID_AIRPORT", none⟩
  | some airport =>
    if airport == "" then
      .error ⟨"Airport code is required and must be a string", "INVALID_AIRPORT", none⟩
    else if !isValidAirportCode airport then
      .error ⟨"Invalid airport code. Supported airports: DXB, LHR, CDG, SIN, HKG, AMS",
        "UNSUPPORTED_AIRPORT", some supportedAirportsList⟩
    else
      match b.question with
      | none =>
        .error ⟨"Question is required and must be a string", "INVALID_QUESTION", none⟩
      | some question =>
        if question == "" then
          .error ⟨"Question is required and must be a string", "INVALID_QUESTION", none⟩
        else if !isValidQuestion (some question) then
          .error ⟨"Please provide a valid question (minimum 5 characters, should be flight-related)",
            "INVALID_QUESTION_FORMAT", none⟩
        else
          match b.date with
          | some d =>
            if !([-1, 1, 2] : List Int).contains d then
              .error ⟨"Date parameter must be -1 (yesterday), 1 (today), or 2 (tomorrow)",
                "INVALID_DAY_PARAMETER", none⟩
            else
              .ok ⟨jsTrim (jsToUpper airport), sanitizeQuestion (some question),
                if d == 0 then none else some d⟩
          | none => .ok ⟨jsTrim (jsToUpper airport), sanitizeQuestion (some question), none⟩

/-! ## Route: response payloads (flights.js lines 62-210) -/

/-- `analysis` block of a response. `relevant` appears only in the skip path. -/
structure AnalysisOut where
  mode : Option String
  reasoning : Option String
  confidence : Option String
  relevant : Option Bool
  deriving DecidableEq

structure SkipMetadata where
  responseTime : String
  timestamp : String
  dataSource : String
  aiModel : String
  flightApiCalled : Bool
  deriving DecidableEq

/-- Skip payload (flights.js lines 79-98). -/
structure SkipPayload where
  success : Bool
  airport : String
  airportName : String
  question : String
  answer : String
  analysis : AnalysisOut
  metadata : SkipMetadata
  deriving DecidableEq

structure TopCountry where
  country : String
  count : Nat
  deriving DecidableEq

structure DirOut where
  total : Nat
  topCountries : List TopCountry
  topAirlines : List String
  deriving DecidableEq

structure DataOut where
  dayParam : Int
  dayLabel : String
  summary : Summary
  arrivals : DirOut
  departures : DirOut
  rawResult : RawResult
  deriving DecidableEq

structure SuccessMetadata where
  responseTime : String
  timestamp : String
  dataSource : String
  aiModel : String
  flightApiMode : Option String
  flightApiCalled : Bool
  deriving DecidableEq

/-- Success payload (flights.js lines 131-174). -/
structure SuccessPayload where
  success : Bool
  airport : String
  airportName : String
  question : String
  answer : String
  analysis : AnalysisOut
  data : DataOut
  metadata : SuccessMetadata
  deriving DecidableEq

structure FailMetadata where
  responseTime : String
  timestamp : String
  deriving DecidableEq

inductive RespBody where
  | validationError (error : String) (code : String) (supportedAirports : Option (List String))
  | skipResponse (payload : SkipPayload)
  | noFlightData (error : String) (code : String) (airport : String)
      (dayParam : Int) (dayLabel : String)
  | querySuccess (payload : SuccessPayload)
  | queryFailure (error : String) (code : String) (airport : String) (question : String)
      (metadata : FailMetadata)
  deriving DecidableEq

structure Response where
  status : Nat
  body : RespBody
  deriving DecidableEq

/-- Which collaborators the handler invoked for a request. -/
structure CallLog where
  classifierCalled : Bool
  fetcherCalled : Bool
  aggregatorCalled : Bool
  generatorCalled : Bool
  deriving DecidableEq

/-! ## Route: `POST /query` handler (flights.js lines 62-210) -/

deriving instance DecidableEq for Except

/-- All request-scoped inputs of one handler run: the parsed body, the
outcomes of the (up to four) external calls, and the nondeterministic
clock values. -/
structure HandlerInput where
  body : ReqBody
  classify : ClassifyOutcome
  fetchArr : Except UpstreamError RawPayload
  fetchDep : Except UpstreamError RawPayload
  generate : Except UpstreamError (Option String)
  elapsed : Nat
  timestamp : String
  fetchedAt : String
  deriving DecidableEq

/-- `modeAnalysis.shouldSkipAPI || modeAnalysis.relevant === false` (line 75). -/
def skipCheck (ma : ModeAnalysis) : Bool :=
  ma.shouldSkipAPI || ma.relevant == some false

/-- `date || 1` (line 103): default to today when `date` is `null`. -/
def jsDay (date : Option Int) : Int :=
  match date with
  | some d => if d == 0 then 1 else d
  | none => 1

/-- Error classification of the catch handler (flights.js lines 182-197). -/
def mapRouteError (msg : String) : Nat × String :=
  if strIncludes msg "Invalid FlightAPI key" then (502, "FLIGHT_API_ERROR")
  else if strIncludes msg "rate limit" then (429, "RATE_LIMIT_EXCEEDED")
  else if strIncludes msg "timeout" then (504, "REQUEST_TIMEOUT")
  else if strIncludes msg "Invalid OpenRouter" then (502, "LLM_API_ERROR")
  else (500, "INTERNAL_ERROR")

/-- The catch handler's response (flights.js lines 176-209). -/
def catchResponse (msg airport question : String) (elapsed : Nat) (ts : String) : Response :=
  { status := (mapRouteError msg).1,
    body := .queryFailure msg (mapRouteError msg).2 airport question
      ⟨toString elapsed ++ "ms", ts⟩ }

/-- The fixed canned fallback answer of the skip path (flights.js line 84). -/
def cannedAnswer : String :=
  "Sorry, I can\x27t understand your question. Can you ask again? I\x27m designed to help with flight schedules, airport information, airlines, and other aviation-related topics."

/-- Skip response payload (flights.js lines 79-98). -/
def mkSkipPayload (s : Sanitized) (ma : ModeAnalysis) (elapsed : Nat) (ts : String) :
    SkipPayload :=
  let analysis : AnalysisOut :=
    { mode := ma.mode, reasoning := ma.reasoning,
      confidence := ma.confidence, relevant := some false }
  let metadata : SkipMetadata :=
    { responseTime := toString elapsed ++ "ms", timestamp := ts,
      dataSource := "No API call made", aiModel := "Gemini Flash 1.5",
      flightApiCalled := false }
  { success := true, airport := s.airport, airportName := getAirportName s.airport,
    question := s.question, answer := cannedAnswer,
    analysis := analysis, metadata := metadata }

/-- Stable descending insertion by group size, modelling the stable JS
`sort(([, a], [, b]) => b.length - a.length)`. -/
def insertDesc {α : Type} (x : String × List α) :
    List (String × List α) → List (String × List α)
  | [] => [x]
  | y :: t => if y.2.length < x.2.length then x :: y :: t else y :: insertDesc x t

def sortDesc {α : Type} (l : List (String × List α)) : List (String × List α) :=
  l.foldr insertDesc []

/-- `topCountries` computation of the success payload (lines 149-152 / 157-160). -/
def topCountries {α : Type} (m : List (String × List α)) : List TopCountry :=
  ((sortDesc m).take 10).map fun p => { country := p.1, count := p.2.length }

/-- Success response payload (flights.js lines 131-174). -/
def mkSuccessPayload (s : Sanitized) (ma : ModeAnalysis) (processedData : ProcessedData)
    (answer : String) (elapsed : Nat) (ts : String) : SuccessPayload :=
  let analysis : AnalysisOut :=
    { mode := ma.mode, reasoning := ma.reasoning,
      confidence := ma.confidence, relevant := none }
  let arrOut : DirOut :=
    { total := processedData.arrivals.total,
      topCountries := topCountries processedData.arrivals.byCountry,
      topAirlines := processedData.arrivals.airlines.take 10 }
  let depOut : DirOut :=
    { total := processedData.departures.total,
      topCountries := topCountries processedData.departures.byCountry,
      topAirlines := processedData.departures.airlines.take 10 }
  let dataOut : DataOut :=
    { dayParam := processedData.dayParam, dayLabel := processedData.dayLabel,
      summary := processedData.summary, arrivals := arrOut, departures := depOut,
      rawResult := processedData.rawResult }
  let metadata : SuccessMetadata :=
    { responseTime := toString elapsed ++ "ms", timestamp := ts,
      dataSource := "FlightAPI.io", aiModel := "Gemini Flash 1.5",
      flightApiMode := ma.mode, flightApiCalled := true }
  { success := true, airport := s.airport, airportName := getAirportName s.airport,
    question := s.question, answer := answer,
    analysis := analysis, data := dataOut, metadata := metadata }

/-- Handler stage after a successful, non-empty fetch: aggregate and
generate (flights.js lines 117-174 and the shared catch). -/
def genStage (inp : HandlerInput) (s : Sanitized) (ma : ModeAnalysis)
    (r : ScheduleResult) : Response × CallLog :=
  let processedData := processFlightData r
  match generateAnswer s.question processedData s.airport ma.mode ma inp.generate with
  | .error msg =>
    (catchResponse msg s.airport s.question inp.elapsed inp.timestamp,
      ⟨true, true, true, true⟩)
  | .ok answer =>
    ({ status := 200,
       body := .querySuccess (mkSuccessPayload s ma processedData answer inp.elapsed inp.timestamp) },
      ⟨true, true, true, true⟩)

/-- Handler stage after the fetch resolved (flights.js lines 107-174). -/
def okStage (inp : HandlerInput) (s : Sanitized) (ma : ModeAnalysis)
    (r : ScheduleResult) : Response × CallLog :=
  if r.arrivals.length == 0 && r.departures.length == 0 then
    ({ status := 404,
       body := .noFlightData
         ("No flight data available for " ++ s.airport ++ " (" ++ r.dayLabel ++ ")")
         "NO_FLIGHT_DATA" s.airport r.dayParam r.dayLabel },
      ⟨true, true, false, false⟩)
  else genStage inp s ma r

/-- Handler stage once the question was classified as relevant
(flights.js lines 101-174 and the shared catch). -/
def fetchStage (inp : HandlerInput) (s : Sanitized) (ma : ModeAnalysis) :
    Response × CallLog :=
  match (getAirportSchedule s.airport (jsDay s.date) (ma.mode.getD "both")
      inp.fetchArr inp.fetchDep inp.fetchedAt).1 with
  | .error msg =>
    (catchResponse msg s.airport s.question inp.elapsed inp.timestamp,
      ⟨true, true, false, false⟩)
  | .ok r => okStage inp s ma r

/-- Handler body once validation passed (flights.js lines 62-209). -/
def postQueryValidated (inp : HandlerInput) (s : Sanitized) : Response × CallLog :=
  let ma := analyzeQuestionForMode s.question inp.classify
  if skipCheck ma then
    ({ status := 200, body := .skipResponse (mkSkipPayload s ma inp.elapsed inp.timestamp) },
      ⟨true, false, false, false⟩)
  else fetchStage inp s ma

/-- `POST /api/flights/query`: validation middleware plus handler
(flights.js lines 8-210). -/
def postQuery (inp : HandlerInput) : Response × CallLog :=
  match validateQueryRequest inp.body with
  | .error eb =>
    ({ status := 400, body := .validationError eb.error eb.code eb.supportedAirports },
      ⟨false, false, false, false⟩)
  | .ok s => postQueryValidated inp s

/-! ## Lemmas about insertion-ordered groupings -/

lemma sumCounts_nil {α : Type} : sumCounts ([] : List (String × List α)) = 0 := rfl

lemma sumCounts_cons {α : Type} (p : String × List α) (m : List (String × List α)) :
    sumCounts (p :: m) = p.2.length + sumCounts m := by
  simp [sumCounts]

/-- Each `pushGroup` adds exactly one detail record to the grouping. -/
lemma sumCounts_pushGroup {α : Type} (m : List (String × List α)) (k : String) (v : α) :
    sumCounts (pushGroup m k v) = sumCounts m + 1 := by
  induction m with
  | nil => simp [pushGroup, sumCounts]
  | cons p t ih =>
    obtain ⟨k2, l⟩ := p
    by_cases h : k2 = k
    · simp [pushGroup, h, sumCounts_cons]
      omega
    · simp [pushGroup, h, sumCounts_cons, ih]
      omega

/-- After `pushGroup m k v`, key `k` has a group containing `v`. -/
lemma pushGroup_self_mem {α : Type} (m : List (String × List α)) (k : String) (v : α) :
    ∃ g, (k, g) ∈ pushGroup m k v ∧ v ∈ g := by
  induction m with
  | nil => exact ⟨[v], by simp [pushGroup]⟩
  | cons p t ih =>
    obtain ⟨k2, l⟩ := p
    by_cases h : k2 = k
    · exact ⟨l ++ [v], by simp [pushGroup, h]⟩
    · obtain ⟨g, hg, hv⟩ := ih
      exact ⟨g, by simp [pushGroup, h, hg], hv⟩

/-- `pushGroup` never removes a detail record from any group. -/
lemma pushGroup_mono {α : Type} {m : List (String × List α)} {k0 : String}
    {g0 : List α} {x : α} (k : String) (v : α)
    (h1 : (k0, g0) ∈ m) (h2 : x ∈ g0) :
    ∃ g, (k0, g) ∈ pushGroup m k v ∧ x ∈ g := by
  induction m with
  | nil => simp at h1
  | cons p t ih =>
    obtain ⟨k2, l⟩ := p
    by_cases h : k2 = k
    · rcases List.mem_cons.mp h1 with h0 | h0
      · have hk : k0 = k2 := (Prod.ext_iff.mp h0).1
        have hl : g0 = l := (Prod.ext_iff.mp h0).2
        refine ⟨l ++ [v], ?_, ?_⟩
        · simp [pushGroup, h, hk]
        · exact List.mem_append_left _ (hl ▸ h2)
      · exact ⟨g0, by simp [pushGroup, h, h0], h2⟩
    · rcases List.mem_cons.mp h1 with h0 | h0
      · exact ⟨g0, by simp [pushGroup, h, h0], h2⟩
      · obtain ⟨g, hg, hx⟩ := ih h0
        exact ⟨g, by simp [pushGroup, h, hg], hx⟩

lemma setAdd_self (s : List String) (x : String) : x ∈ setAdd s x := by
  unfold setAdd
  by_cases h : x ∈ s <;> simp [h]

lemma setAdd_mono {s : List String} {x : String} (y : String) (h : x ∈ s) :
    x ∈ setAdd s y := by
  unfold setAdd
  by_cases hy : y ∈ s <;> simp [hy, h]

/-! ## Generic lemmas about the two `forEach` aggregation loops -/

/-- When every record has a (truthy) `flight` object, each of the two
groupings gains exactly one detail record per input element. -/
lemma foldl_sumCounts {α : Type} (step : DirState → FlightWrapper → DirState)
    (proj : DirState → List (String × List α)) (key : Flight → String) (det : Flight → α)
    (hstep : ∀ s w fl, w.flight = some fl →
      proj (step s w) = pushGroup (proj s) (key fl) (det fl)) :
    ∀ (L : List FlightWrapper) (s : DirState), (∀ w ∈ L, w.flight.isSome) →
      sumCounts (proj (L.foldl step s)) = sumCounts (proj s) + L.length := by
  intro L
  induction L with
  | nil => intro s _; simp
  | cons a t ih =>
    intro s hall
    obtain ⟨fl, hfl⟩ := Option.isSome_iff_exists.mp (hall a (by simp))
    have ht : ∀ w ∈ t, w.flight.isSome := fun w hw => hall w (by simp [hw])
    simp only [List.foldl_cons]
    rw [ih (step s a) ht, hstep s a fl hfl, sumCounts_pushGroup]
    simp [List.length_cons]
    omega

/-- Group membership is preserved by the rest of the loop. -/
lemma foldl_group_mono {α : Type} (step : DirState → FlightWrapper → DirState)
    (proj : DirState → List (String × List α)) (key : Flight → String) (det : Flight → α)
    (hnone : ∀ s w, w.flight = none → proj (step s w) = proj s)
    (hstep : ∀ s w fl, w.flight = some fl →
      proj (step s w) = pushGroup (proj s) (key fl) (det fl)) :
    ∀ (L : List FlightWrapper) (s : DirState) (k : String) (g : List α) (x : α),
      (k, g) ∈ proj s → x ∈ g →
      ∃ g2, (k, g2) ∈ proj (L.foldl step s) ∧ x ∈ g2 := by
  intro L
  induction L with
  | nil => exact fun s k g x h1 h2 => ⟨g, h1, h2⟩
  | cons a t ih =>
    intro s k g x h1 h2
    simp only [List.foldl_cons]
    cases ha : a.flight with
    | none => exact ih (step s a) k g x (by rw [hnone s a ha]; exact h1) h2
    | some fl =>
      obtain ⟨g2, hg2, hx⟩ := pushGroup_mono (key fl) (det fl) h1 h2
      exact ih (step s a) k g2 x (by rw [hstep s a fl ha]; exact hg2) hx

/-- Every record with a `flight` object ends up, with its detail tuple, in
the group of its resolved key. -/
lemma foldl_group_mem {α : Type} (step : DirState → FlightWrapper → DirState)
    (proj : DirState → List (String × List α)) (key : Flight → String) (det : Flight → α)
    (hnone : ∀ s w, w.flight = none → proj (step s w) = proj s)
    (hstep : ∀ s w fl, w.flight = some fl →
      proj (step s w) = pushGroup (proj s) (key fl) (det fl)) :
    ∀ (L : List FlightWrapper) (s : DirState) (w : FlightWrapper) (fl : Flight),
      w ∈ L → w.flight = some fl →
      ∃ g, (key fl, g) ∈ proj (L.foldl step s) ∧ det fl ∈ g := by
  intro L
  induction L with
  | nil => intro s w fl hw; simp at hw
  | cons a t ih =>
    intro s w fl hw hfl
    simp only [List.foldl_cons]
    rcases List.mem_cons.mp hw with h0 | h0
    · subst h0
      obtain ⟨g, hg, hv⟩ := pushGroup_self_mem (proj s) (key fl) (det fl)
      exact foldl_group_mono step proj key det hnone hstep t (step s w) (key fl) g
        (det fl) (by rw [hstep s w fl hfl]; exact hg) hv
    · exact ih (step s a) w fl h0 hfl

lemma foldl_airlines_mono (step : DirState → FlightWrapper → DirState)
    (akey : Flight → String)
    (hnone : ∀ s w, w.flight = none → (step s w).airlines = s.airlines)
    (hstep : ∀ s w fl, w.flight = some fl →
      (step s w).airlines = setAdd s.airlines (akey fl)) :
    ∀ (L : List FlightWrapper) (s : DirState) (x : String),
      x ∈ s.airlines → x ∈ (L.foldl step s).airlines := by
  intro L
  induction L with
  | nil => exact fun s x h => h
  | cons a t ih =>
    intro s x h
    simp only [List.foldl_cons]
    cases ha : a.flight with
    | none => exact ih (step s a) x (by rw [hnone s a ha]; exact h)
    | some fl => exact ih (step s a) x (by rw [hstep s a fl ha]; exact setAdd_mono _ h)

lemma foldl_airlines_mem (step : DirState → FlightWrapper → DirState)
    (akey : Flight → String)
    (hnone : ∀ s w, w.flight = none → (step s w).airlines = s.airlines)
    (hstep : ∀ s w fl, w.flight = some fl →
      (step s w).airlines = setAdd s.airlines (akey fl)) :
    ∀ (L : List FlightWrapper) (s : DirState) (w : FlightWrapper) (fl : Flight),
      w ∈ L → w.flight = some fl → akey fl ∈ (L.foldl step s).airlines := by
  intro L
  induction L with
  | nil => intro s w fl hw; simp at hw
  | cons a t ih =>
    intro s w fl hw hfl
    simp only [List.foldl_cons]
    rcases List.mem_cons.mp hw with h0 | h0
    · subst h0
      exact foldl_airlines_mono step akey hnone hstep t (step s w) (akey fl)
        (by rw [hstep s w fl hfl]; exact setAdd_self _ _)
    · exact ih (step s a) w fl h0 hfl

/-! ## Step characterizations of the two loops -/

lemma arrStep_none : ∀ (s : DirState) (w : FlightWrapper), w.flight = none →
    processArrivalsStep s w = s := by
  intro s w h
  simp [processArrivalsStep, h]

lemma arrStep_some : ∀ (s : DirState) (w : FlightWrapper) (fl : Flight),
    w.flight = some fl →
    processArrivalsStep s w =
      { byCountry := pushGroup s.byCountry (countryKeyOf (arrOrigin fl)) (arrCountryDetail fl),
        byCity := pushGroup s.byCity (cityKeyOf (arrOrigin fl)) (arrCityDetail fl),
        airlines := setAdd s.airlines (airlineKeyOf fl) } := by
  intro s w fl h
  simp [processArrivalsStep, h]

lemma depStep_none : ∀ (s : DirState) (w : FlightWrapper), w.flight = none →
    processDeparturesStep s w = s := by
  intro s w h
  simp [processDeparturesStep, h]

lemma depStep_some : ∀ (s : DirState) (w : FlightWrapper) (fl : Flight),
    w.flight = some fl →
    processDeparturesStep s w =
      { byCountry := pushGroup s.byCountry (countryKeyOf (depDest fl)) (depCountryDetail fl),
        byCity := pushGroup s.byCity (cityKeyOf (depDest fl)) (depCityDetail fl),
        airlines := setAdd s.airlines (airlineKeyOf fl) } := by
  intro s w fl h
  simp [processDeparturesStep, h]

lemma arrStep_byCountry : ∀ (s : DirState) (w : FlightWrapper) (fl : Flight),
    w.flight = some fl →
    (processArrivalsStep s w).byCountry =
      pushGroup s.byCountry (countryKeyOf (arrOrigin fl)) (arrCountryDetail fl) := by
  intro s w fl h
  rw [arrStep_some s w fl h]

lemma arrStep_byCity : ∀ (s : DirState) (w : FlightWrapper) (fl : Flight),
    w.flight = some fl →
    (processArrivalsStep s w).byCity =
      pushGroup s.byCity (cityKeyOf (arrOrigin fl)) (arrCityDetail fl) := by
  intro s w fl h
  rw [arrStep_some s w fl h]

lemma depStep_byCountry : ∀ (s : DirState) (w : FlightWrapper) (fl : Flight),
    w.flight = some fl →
    (processDeparturesStep s w).byCountry =
      pushGroup s.byCountry (countryKeyOf (depDest fl)) (depCountryDetail fl) := by
  intro s w fl h
  rw [depStep_some s w fl h]

lemma depStep_byCity : ∀ (s : DirState) (w : FlightWrapper) (fl : Flight),
    w.flight = some fl →
    (processDeparturesStep s w).byCity =
      pushGroup s.byCity (cityKeyOf (depDest fl)) (depCityDetail fl) := by
  intro s w fl h
  rw [depStep_some s w fl h]

/-! ## Claim C1 -/

/-- C1 (amended): for every fetched direction list in which every record
carries a (truthy) `flight` object, the per-direction by-country and
by-city groupings produced by `processFlightData` each contain exactly as
many flight-detail records in total as that direction's input list has
elements — no such record is dropped or duplicated.  (Records without a
`flight` object are skipped by the `forEach` guard, which is why the
hypothesis is needed; see the counterexample.) -/
theorem C1_aggregation_preserves_counts (fd : ScheduleResult)
    (hA : ∀ w ∈ fd.arrivals, w.flight.isSome)
    (hD : ∀ w ∈ fd.departures, w.flight.isSome) :
    sumCounts (processFlightData fd).arrivals.byCountry = fd.arrivals.length ∧
    sumCounts (processFlightData fd).arrivals.byCity = fd.arrivals.length ∧
    sumCounts (processFlightData fd).departures.byCountry = fd.departures.length ∧
    sumCounts (processFlightData fd).departures.byCity = fd.departures.length := by
  have e1 : (processFlightData fd).arrivals.byCountry =
      (fd.arrivals.foldl processArrivalsStep ⟨[], [], []⟩).byCountry := rfl
  have e2 : (processFlightData fd).arrivals.byCity =
      (fd.arrivals.foldl processArrivalsStep ⟨[], [], []⟩).byCity := rfl
  have e3 : (processFlightData fd).departures.byCountry =
      (fd.departures.foldl processDeparturesStep ⟨[], [], []⟩).byCountry := rfl
  have e4 : (processFlightData fd).departures.byCity =
      (fd.departures.foldl processDeparturesStep ⟨[], [], []⟩).byCity := rfl
  refine ⟨?_, ?_, ?_, ?_⟩
  · rw [e1, foldl_sumCounts processArrivalsStep DirState.byCountry
      (fun fl => countryKeyOf (arrOrigin fl)) arrCountryDetail arrStep_byCountry
      fd.arrivals ⟨[], [], []⟩ hA]
    simp [sumCounts]
  · rw [e2, foldl_sumCounts processArrivalsStep DirState.byCity
      (fun fl => cityKeyOf (arrOrigin fl)) arrCityDetail arrStep_byCity
      fd.arrivals ⟨[], [], []⟩ hA]
    simp [sumCounts]
  · rw [e3, foldl_sumCounts processDeparturesStep DirState.byCountry
      (fun fl => countryKeyOf (depDest fl)) depCountryDetail depStep_byCountry
      fd.departures ⟨[], [], []⟩ hD]
    simp [sumCounts]
  · rw [e4, foldl_sumCounts processDeparturesStep DirState.byCity
      (fun fl => cityKeyOf (depDest fl)) depCityDetail depStep_byCity
      fd.departures ⟨[], [], []⟩ hD]
    simp [sumCounts]

/-- Input refuting C1 as stated: one arrival record without a `flight`
object. -/
def fdC1 : ScheduleResult :=
  ⟨"DXB", 1, "Today", [⟨none⟩], [], ⟨none, none⟩,
    ⟨1, 0, "t0", "FlightAPI.io /schedule", "arrivals", "DXB", 1⟩⟩

/-- C1 counterexample: on an arrivals list with one record whose `flight`
field is absent, the by-country (and by-city) detail counts of
`processFlightData` are 0 while the input list has length 1 — the record
is counted in the direction total but appears in no group, so the sums do
not equal the input length for every input list. -/
theorem C1_counterexample :
    fdC1.arrivals.length = 1 ∧
    sumCounts (processFlightData fdC1).arrivals.byCountry = 0 ∧
    sumCounts (processFlightData fdC1).arrivals.byCity = 0 ∧
    sumCounts (processFlightData fdC1).arrivals.byCountry ≠ fdC1.arrivals.length := by
  decide

def caFRA : CounterAirport :=
  ⟨some ⟨some ⟨some "Germany", some "DE"⟩⟩, some "Frankfurt Airport", some ⟨some "FRA"⟩⟩

def flFRA : Flight :=
  ⟨some ⟨some caFRA, some caFRA⟩, some ⟨some "Lufthansa", some ⟨some "LH"⟩⟩,
    none, none, none, none⟩

def fdC1W : ScheduleResult :=
  ⟨"DXB", 1, "Today", [⟨some flFRA⟩, ⟨some flFRA⟩], [⟨some flFRA⟩], ⟨none, none⟩,
    ⟨2, 1, "t0", "FlightAPI.io /schedule", "both", "DXB", 1⟩⟩

/-- C1 witness: a concrete input satisfying the hypotheses, with the
summed group counts equal to the list lengths. -/
theorem C1_witness :
    (∀ w ∈ fdC1W.arrivals, w.flight.isSome) ∧
    sumCounts (processFlightData fdC1W).arrivals.byCountry = fdC1W.arrivals.length ∧
    sumCounts (processFlightData fdC1W).departures.byCity = fdC1W.departures.length :=
  ⟨by decide,
    (C1_aggregation_preserves_counts fdC1W (by decide) (by decide)).1,
    (C1_aggregation_preserves_counts fdC1W (by decide) (by decide)).2.2.2⟩

/-! ## Claim C2 -/

/-- C2: every record carrying a `flight` object — in particular one whose
counterpart-airport or airline data is missing — is grouped by
`processFlightData` (never raising an error: the aggregation is total),
and its grouping keys follow the fallback chains: country = full country
name, else country code, else "Unknown Country"; city = airport name,
else IATA code, else "Unknown City"; airline = airline name, else airline
code, else "Unknown Airline". -/
theorem C2_fallback_resolution (fd : ScheduleResult) (w : FlightWrapper) (fl : Flight)
    (hfl : w.flight = some fl) :
    (w ∈ fd.arrivals →
      (∃ g, (countryKeyOf (arrOrigin fl), g) ∈ (processFlightData fd).arrivals.byCountry ∧
        arrCountryDetail fl ∈ g) ∧
      (∃ g, (cityKeyOf (arrOrigin fl), g) ∈ (processFlightData fd).arrivals.byCity ∧
        arrCityDetail fl ∈ g) ∧
      airlineKeyOf fl ∈ (processFlightData fd).arrivals.airlines) ∧
    (w ∈ fd.departures →
      (∃ g, (countryKeyOf (depDest fl), g) ∈ (processFlightData fd).departures.byCountry ∧
        depCountryDetail fl ∈ g) ∧
      (∃ g, (cityKeyOf (depDest fl), g) ∈ (processFlightData fd).departures.byCity ∧
        depCityDetail fl ∈ g) ∧
      airlineKeyOf fl ∈ (processFlightData fd).departures.airlines) ∧
    (∀ a : Option CounterAirport,
      (countryNameOf a = none → countryCodeOf a = none →
        countryKeyOf a = "Unknown Country") ∧
      (∀ n, countryNameOf a = some n → n ≠ "" → countryKeyOf a = n) ∧
      (∀ c, countryNameOf a = none → countryCodeOf a = some c → c ≠ "" →
        countryKeyOf a = c)) ∧
    (∀ a : Option CounterAirport,
      (airportNameOf a = none → airportIataOf a = none → cityKeyOf a = "Unknown City") ∧
      (∀ n, airportNameOf a = some n → n ≠ "" → cityKeyOf a = n) ∧
      (∀ c, airportNameOf a = none → airportIataOf a = some c → c ≠ "" →
        cityKeyOf a = c)) ∧
    ((fl.airline.bind AirlineBlock.name = none →
        (fl.airline.bind AirlineBlock.code).bind CodeBlock.iata = none →
        airlineKeyOf fl = "Unknown Airline") ∧
      (∀ n, fl.airline.bind AirlineBlock.name = some n → n ≠ "" → airlineKeyOf fl = n) ∧
      (∀ c, fl.airline.bind AirlineBlock.name = none →
        (fl.airline.bind AirlineBlock.code).bind CodeBlock.iata = some c → c ≠ "" →
        airlineKeyOf fl = c)) := by
  refine ⟨?_, ?_, ?_, ?_, ?_⟩
  · intro hw
    refine ⟨?_, ?_, ?_⟩
    · exact foldl_group_mem processArrivalsStep DirState.byCountry
        (fun fl => countryKeyOf (arrOrigin fl)) arrCountryDetail
        (fun s w h => by rw [arrStep_none s w h]) arrStep_byCountry
        fd.arrivals ⟨[], [], []⟩ w fl hw hfl
    · exact foldl_group_mem processArrivalsStep DirState.byCity
        (fun fl => cityKeyOf (arrOrigin fl)) arrCityDetail
        (fun s w h => by rw [arrStep_none s w h]) arrStep_byCity
        fd.arrivals ⟨[], [], []⟩ w fl hw hfl
    · exact foldl_airlines_mem processArrivalsStep airlineKeyOf
        (fun s w h => by rw [arrStep_none s w h])
        (fun s w fl h => by rw [arrStep_some s w fl h])
        fd.arrivals ⟨[], [], []⟩ w fl hw hfl
  · intro hw
    refine ⟨?_, ?_, ?_⟩
    · exact foldl_group_mem processDeparturesStep DirState.byCountry
        (fun fl => countryKeyOf (depDest fl)) depCountryDetail
        (fun s w h => by rw [depStep_none s w h]) depStep_byCountry
        fd.departures ⟨[], [], []⟩ w fl hw hfl
    · exact foldl_group_mem processDeparturesStep DirState.byCity
        (fun fl => cityKeyOf (depDest fl)) depCityDetail
        (fun s w h => by rw [depStep_none s w h]) depStep_byCity
        fd.departures ⟨[], [], []⟩ w fl hw hfl
    · exact foldl_airlines_mem processDeparturesStep airlineKeyOf
        (fun s w h => by rw [depStep_none s w h])
        (fun s w fl h => by rw [depStep_some s w fl h])
        fd.departures ⟨[], [], []⟩ w fl hw hfl
  · intro a
    refine ⟨fun h1 h2 => ?_, fun n h1 hn => ?_, fun c h1 h2 hc => ?_⟩
    · simp [countryKeyOf, jsOr, jsOrD, jsTruthy, h1, h2]
    · simp [countryKeyOf, jsOr, jsOrD, jsTruthy, h1, hn]
    · simp [countryKeyOf, jsOr, jsOrD, jsTruthy, h1, h2, hc]
  · intro a
    refine ⟨fun h1 h2 => ?_, fun n h1 hn => ?_, fun c h1 h2 hc => ?_⟩
    · simp [cityKeyOf, jsOr, jsOrD, jsTruthy, h1, h2]
    · simp [cityKeyOf, jsOr, jsOrD, jsTruthy, h1, hn]
    · simp [cityKeyOf, jsOr, jsOrD, jsTruthy, h1, h2, hc]
  · refine ⟨fun h1 h2 => ?_, fun n h1 hn => ?_, fun c h1 h2 hc => ?_⟩
    · simp [airlineKeyOf, jsOr, jsOrD, jsTruthy, h1, h2]
    · simp [airlineKeyOf, jsOr, jsOrD, jsTruthy, h1, hn]
    · simp [airlineKeyOf, jsOr, jsOrD, jsTruthy, h1, h2, hc]

/-- A record with a `flight` object but no airport/airline data at all. -/
def flEmpty : Flight := ⟨none, none, none, none, none, none⟩

def fdC2W : ScheduleResult :=
  ⟨"DXB", 1, "Today", [⟨some flEmpty⟩], [], ⟨none, none⟩,
    ⟨1, 0, "t0", "FlightAPI.io /schedule", "arrivals", "DXB", 1⟩⟩

/-- C2 witness: a record with every airport/airline field missing resolves
to the three sentinels and still lands in the groupings. -/
theorem C2_witness :
    countryKeyOf (arrOrigin flEmpty) = "Unknown Country" ∧
    cityKeyOf (arrOrigin flEmpty) = "Unknown City" ∧
    airlineKeyOf flEmpty = "Unknown Airline" ∧
    (∃ g, (countryKeyOf (arrOrigin flEmpty), g) ∈
      (processFlightData fdC2W).arrivals.byCountry ∧ arrCountryDetail flEmpty ∈ g) ∧
    airlineKeyOf flEmpty ∈ (processFlightData fdC2W).arrivals.airlines := by
  have h := C2_fallback_resolution fdC2W ⟨some flEmpty⟩ flEmpty rfl
  have hw : (⟨some flEmpty⟩ : FlightWrapper) ∈ fdC2W.arrivals := by decide
  exact ⟨rfl, rfl, rfl, (h.1 hw).1, (h.1 hw).2.2⟩

/-! ## Claim C5 -/

/-- C5: when the classification LLM call itself fails, `analyzeQuestionForMode`
resolves (it never rejects: the embedding is total) with the safe default —
mode "arrivals", confidence "low", and the reasoning string flagging the
error fallback.  No `relevant` field is set on this path. -/
theorem C5_classifier_error_default (question : String) :
    analyzeQuestionForMode question ClassifyOutcome.callError =
      { relevant := none, mode := some "arrivals",
        reasoning := some "Default fallback due to analysis error",
        confidence := some "low", shouldSkipAPI := false } := rfl

/-! ## Claim C6 -/

/-- C6: when the classifier's LLM reply cannot be parsed as JSON, the
deterministic keyword fallback applies to the lower-cased question:
no aviation keyword ⇒ relevant=false, mode="none", shouldSkipAPI=true;
otherwise a destination keyword ⇒ "departures", else "from"/"arriving" ⇒
"arrivals", else "both"; every fallback result has confidence "medium". -/
theorem C6_keyword_fallback (q : String) :
    ((∀ k ∈ (["flight", "airport", "airline", "plane", "aircraft", "departure",
        "arrival", "terminal", "gate", "runway"] : List String),
        strIncludes (jsToLower q) k = false) →
      analyzeQuestionForMode q ClassifyOutcome.parseFail =
        { relevant := some false, mode := some "none",
          reasoning := some "Question does not contain aviation-related keywords",
          confidence := some "medium", shouldSkipAPI := true }) ∧
    ((∃ k ∈ (["flight", "airport", "airline", "plane", "aircraft", "departure",
        "arrival", "terminal", "gate", "runway"] : List String),
        strIncludes (jsToLower q) k = true) →
      ((strIncludes (jsToLower q) "fly to" || strIncludes (jsToLower q) "go to" ||
          strIncludes (jsToLower q) "destination" || strIncludes (jsToLower q) "departing" ||
          strIncludes (jsToLower q) "leaving") = true →
        (analyzeQuestionForMode q ClassifyOutcome.parseFail).mode = some "departures") ∧
      ((strIncludes (jsToLower q) "fly to" || strIncludes (jsToLower q) "go to" ||
          strIncludes (jsToLower q) "destination" || strIncludes (jsToLower q) "departing" ||
          strIncludes (jsToLower q) "leaving") = false →
        (strIncludes (jsToLower q) "from" || strIncludes (jsToLower q) "arriving") = true →
        (analyzeQuestionForMode q ClassifyOutcome.parseFail).mode = some "arrivals") ∧
      ((strIncludes (jsToLower q) "fly to" || strIncludes (jsToLower q) "go to" ||
          strIncludes (jsToLower q) "destination" || strIncludes (jsToLower q) "departing" ||
          strIncludes (jsToLower q) "leaving") = false →
        (strIncludes (jsToLower q) "from" || strIncludes (jsToLower q) "arriving") = false →
        (analyzeQuestionForMode q ClassifyOutcome.parseFail).mode = some "both") ∧
      (analyzeQuestionForMode q ClassifyOutcome.parseFail).relevant = some true ∧
      (analyzeQuestionForMode q ClassifyOutcome.parseFail).shouldSkipAPI = false) ∧
    (analyzeQuestionForMode q ClassifyOutcome.parseFail).confidence = some "medium" := by
  have he : analyzeQuestionForMode q ClassifyOutcome.parseFail = keywordFallback q := rfl
  refine ⟨?_, ?_, ?_⟩
  · intro hnone
    have hav : ((["flight", "airport", "airline", "plane", "aircraft", "departure",
        "arrival", "terminal", "gate", "runway"] : List String).any fun keyword =>
          strIncludes (jsToLower q) keyword) = false := by
      rw [List.any_eq_false]
      intro k hk
      simp [hnone k hk]
    rw [he]
    simp only [keywordFallback, hav]
    rfl
  · intro ⟨k, hk, hks⟩
    have hav : ((["flight", "airport", "airline", "plane", "aircraft", "departure",
        "arrival", "terminal", "gate", "runway"] : List String).any fun keyword =>
          strIncludes (jsToLower q) keyword) = true :=
      List.any_eq_true.mpr ⟨k, hk, by simp [hks]⟩
    refine ⟨fun hdest => ?_, fun hdest horig => ?_, fun hdest horig => ?_, ?_, ?_⟩
    · rw [he]; simp only [keywordFallback, hav, hdest]; rfl
    · rw [he]; simp only [keywordFallback, hav, hdest, horig]; rfl
    · rw [he]; simp only [keywordFallback, hav, hdest, horig]; rfl
    · rw [he]
      simp only [keywordFallback, hav]
      cases hdest : (strIncludes (jsToLower q) "fly to" || strIncludes (jsToLower q) "go to" ||
          strIncludes (jsToLower q) "destination" || strIncludes (jsToLower q) "departing" ||
          strIncludes (jsToLower q) "leaving") <;>
        cases horig : (strIncludes (jsToLower q) "from" || strIncludes (jsToLower q) "arriving") <;>
        simp
    · rw [he]
      simp only [keywordFallback, hav]
      cases hdest : (strIncludes (jsToLower q) "fly to" || strIncludes (jsToLower q) "go to" ||
          strIncludes (jsToLower q) "destination" || strIncludes (jsToLower q) "departing" ||
          strIncludes (jsToLower q) "leaving") <;>
        cases horig : (strIncludes (jsToLower q) "from" || strIncludes (jsToLower q) "arriving") <;>
        simp
  · rw [he]
    simp only [keywordFallback]
    cases hav : ((["flight", "airport", "airline", "plane", "aircraft", "departure",
        "arrival", "terminal", "gate", "runway"] : List String).any fun keyword =>
          strIncludes (jsToLower q) keyword) <;>
      cases hdest : (strIncludes (jsToLower q) "fly to" || strIncludes (jsToLower q) "go to" ||
          strIncludes (jsToLower q) "destination" || strIncludes (jsToLower q) "departing" ||
          strIncludes (jsToLower q) "leaving") <;>
      cases horig : (strIncludes (jsToLower q) "from" || strIncludes (jsToLower q) "arriving") <;>
      simp

/-- C6 witness: a question without any aviation keyword is marked
irrelevant with the skip flag by the fallback. -/
theorem C6_witness :
    analyzeQuestionForMode "What\x27s the weather like?" ClassifyOutcome.parseFail =
      { relevant := some false, mode := some "none",
        reasoning := some "Question does not contain aviation-related keywords",
        confidence := some "medium", shouldSkipAPI := true } :=
  (C6_keyword_fallback "What\x27s the weather like?").1 (by decide)

/-! ## Claim C4 -/

/-- C4: whenever the classifier result has `shouldSkipAPI` set or
`relevant === false`, the handler responds immediately with the fixed
canned fallback answer, `analysis.relevant = false` and
`metadata.flightApiCalled = false`, and the Schedule Fetcher is never
invoked for that request. -/
theorem C4_skip_path (inp : HandlerInput) (s : Sanitized)
    (hv : validateQueryRequest inp.body = .ok s)
    (hskip : skipCheck (analyzeQuestionForMode s.question inp.classify) = true) :
    (postQuery inp).1 =
      { status := 200,
        body := .skipResponse (mkSkipPayload s
          (analyzeQuestionForMode s.question inp.classify) inp.elapsed inp.timestamp) } ∧
    (mkSkipPayload s (analyzeQuestionForMode s.question inp.classify)
      inp.elapsed inp.timestamp).answer = cannedAnswer ∧
    (mkSkipPayload s (analyzeQuestionForMode s.question inp.classify)
      inp.elapsed inp.timestamp).analysis.relevant = some false ∧
    (mkSkipPayload s (analyzeQuestionForMode s.question inp.classify)
      inp.elapsed inp.timestamp).metadata.flightApiCalled = false ∧
    (postQuery inp).2.fetcherCalled = false := by
  have h : postQuery inp = postQueryValidated inp s := by simp [postQuery, hv]
  have h2 : postQueryValidated inp s =
      ({ status := 200, body := .skipResponse (mkSkipPayload s
          (analyzeQuestionForMode s.question inp.classify) inp.elapsed inp.timestamp) },
        ⟨true, false, false, false⟩) := by
    simp [postQueryValidated, hskip]
  rw [h, h2]
  exact ⟨rfl, rfl, rfl, rfl, rfl⟩

def inpC4 : HandlerInput :=
  ⟨⟨some "dxb", some "What is the airport website?", none⟩,
    .parsed ⟨some false, some "none", some "not aviation", some "high", false⟩,
    .error ⟨none, false, "unused"⟩, .error ⟨none, false, "unused"⟩,
    .error ⟨none, false, "unused"⟩, 7, "ts0", "ft0"⟩

def sC4 : Sanitized := ⟨"DXB", "What is the airport website?", none⟩

/-- C4 witness: a request classified irrelevant gets the canned answer with
`flightApiCalled = false` and the fetcher is not invoked. -/
theorem C4_witness :
    (postQuery inpC4).1.status = 200 ∧
    (postQuery inpC4).2.fetcherCalled = false ∧
    (postQuery inpC4).1.body =
      .skipResponse (mkSkipPayload sC4
        (analyzeQuestionForMode sC4.question inpC4.classify) 7 "ts0") := by
  have h := C4_skip_path inpC4 sC4 (by decide) (by decide)
  refine ⟨?_, h.2.2.2.2, ?_⟩
  · rw [h.1]
  · rw [h.1]
    rfl

/-! ## Claim C7 -/

/-- C7: if the fetch succeeds with empty arrivals and empty departures, the
handler responds 404 `NO_FLIGHT_DATA` (carrying airport, dayParam and
dayLabel) and neither the aggregator nor the answer generator runs. -/
theorem C7_no_flight_data (inp : HandlerInput) (s : Sanitized) (r : ScheduleResult)
    (hv : validateQueryRequest inp.body = .ok s)
    (hns : skipCheck (analyzeQuestionForMode s.question inp.classify) = false)
    (hfok : (getAirportSchedule s.airport (jsDay s.date)
        ((analyzeQuestionForMode s.question inp.classify).mode.getD "both")
        inp.fetchArr inp.fetchDep inp.fetchedAt).1 = .ok r)
    (hA : r.arrivals = []) (hD : r.departures = []) :
    (postQuery inp).1 =
      { status := 404,
        body := .noFlightData
          ("No flight data available for " ++ s.airport ++ " (" ++ r.dayLabel ++ ")")
          "NO_FLIGHT_DATA" s.airport r.dayParam r.dayLabel } ∧
    (postQuery inp).2.aggregatorCalled = false ∧
    (postQuery inp).2.generatorCalled = false := by
  have h : postQuery inp =
      okStage inp s (analyzeQuestionForMode s.question inp.classify) r := by
    simp [postQuery, hv, postQueryValidated, hns, fetchStage, hfok]
  rw [h]
  simp [okStage, hA, hD]

def inpC7 : HandlerInput :=
  ⟨⟨some "dxb", some "How many flights from Germany?", some 1⟩,
    .parsed ⟨some true, some "both", none, none, false⟩,
    .ok ⟨none⟩, .ok ⟨none⟩, .error ⟨none, false, "unused"⟩, 7, "ts0", "ft0"⟩

def sC7 : Sanitized := ⟨"DXB", "How many flights from Germany?", some 1⟩

def rC7 : ScheduleResult :=
  ⟨"DXB", 1, "Today", [], [], ⟨some ⟨none⟩, some ⟨none⟩⟩,
    ⟨0, 0, "ft0", "FlightAPI.io /schedule", "both", "DXB", 1⟩⟩

/-- C7 witness: a fetch that finds no flights in either direction yields
the 404 and skips aggregation and generation. -/
theorem C7_witness :
    (postQuery inpC7).1.status = 404 ∧
    (postQuery inpC7).2.generatorCalled = false := by
  have h := C7_no_flight_data inpC7 sC7 rC7 (by decide) (by decide) (by decide) rfl rfl
  exact ⟨by rw [h.1], h.2.2⟩

/-! ## Claim C8 -/

/-- C8 (amended): for every request whose airport field is a non-empty
string that is not (case-insensitively) one of the six supported codes,
validation responds 400 `UNSUPPORTED_AIRPORT` and no classifier, fetcher or
generator call is made.  (An empty-string airport instead yields
`INVALID_AIRPORT`, see the counterexample.) -/
theorem C8_unsupported_airport (inp : HandlerInput) (a : String)
    (ha : inp.body.airport = some a) (hne : a ≠ "")
    (hbad : jsToUpper a ∉ supportedAirportsList) :
    (postQuery inp).1 =
      { status := 400,
        body := .validationError
          "Invalid airport code. Supported airports: DXB, LHR, CDG, SIN, HKG, AMS"
          "UNSUPPORTED_AIRPORT" (some supportedAirportsList) } ∧
    (postQuery inp).2 = ⟨false, false, false, false⟩ := by
  simp only [supportedAirportsList] at hbad
  have hval : isValidAirportCode a = false := by
    simp only [isValidAirportCode]
    rw [Bool.eq_false_iff]
    intro hc
    exact hbad (List.elem_iff.mp hc)
  have hne2 : (a == "") = false := beq_eq_false_iff_ne.mpr hne
  constructor <;> simp [postQuery, validateQueryRequest, ha, hne2, hval, supportedAirportsList]

def inpC8 : HandlerInput :=
  ⟨⟨some "", some "How many flights from Germany?", none⟩,
    .callError, .error ⟨none, false, "unused"⟩, .error ⟨none, false, "unused"⟩,
    .error ⟨none, false, "unused"⟩, 7, "ts0", "ft0"⟩

/-- C8 counterexample: an empty-string airport code is not one of the six
supported codes, yet the response code is `INVALID_AIRPORT`, not
`UNSUPPORTED_AIRPORT` (the `!airport` falsiness check fires first). -/
theorem C8_counterexample :
    jsToUpper "" ∉ supportedAirportsList ∧
    (postQuery inpC8).1 =
      ⟨400, .validationError "Airport code is required and must be a string"
        "INVALID_AIRPORT" none⟩ ∧
    ("INVALID_AIRPORT" : String) ≠ "UNSUPPORTED_AIRPORT" := by
  refine ⟨by decide, by decide, by decide⟩

def inpC8W : HandlerInput :=
  ⟨⟨some "jfk", some "How many flights from Germany?", none⟩,
    .callError, .error ⟨none, false, "unused"⟩, .error ⟨none, false, "unused"⟩,
    .error ⟨none, false, "unused"⟩, 7, "ts0", "ft0"⟩

/-- C8 witness: a non-empty unsupported code ("jfk") is rejected with
`UNSUPPORTED_AIRPORT` and no collaborator is called. -/
theorem C8_witness :
    (postQuery inpC8W).1.status = 400 ∧
    (postQuery inpC8W).2 = ⟨false, false, false, false⟩ := by
  have h := C8_unsupported_airport inpC8W "jfk" rfl (by decide) (by decide)
  exact ⟨by rw [h.1], h.2⟩

/-! ## Claim C9 -/

/-- C9 (amended): a string question passes `isValidQuestion` if and only if
its trimmed length is between 5 and 500 AND it contains a question word
(how/what/where/when/why/which/who/many/much, case-insensitive substring)
or a question mark; a non-empty question failing this check is rejected
with 400 `INVALID_QUESTION_FORMAT` before any downstream call (an empty
string question gets `INVALID_QUESTION` instead).  The claim's pure
length-based iff fails, see the counterexample. -/
theorem C9_question_validation :
    (∀ q : String,
      isValidQuestion (some q) = true ↔
        (5 ≤ (jsTrim q).length ∧ (jsTrim q).length ≤ 500 ∧
          ((∃ word ∈ (["how", "what", "where", "when", "why", "which", "who",
              "many", "much"] : List String),
              strIncludes (jsToLower (jsTrim q)) word = true) ∨
            strIncludes (jsTrim q) "?" = true))) ∧
    (∀ (inp : HandlerInput) (a q : String),
      inp.body.airport = some a → a ≠ "" → isValidAirportCode a = true →
      inp.body.question = some q → q ≠ "" → isValidQuestion (some q) = false →
      (postQuery inp).1 =
        ⟨400, .validationError
          "Please provide a valid question (minimum 5 characters, should be flight-related)"
          "INVALID_QUESTION_FORMAT" none⟩ ∧
      (postQuery inp).2 = ⟨false, false, false, false⟩) := by
  constructor
  · intro q
    by_cases h0 : q = ""
    · subst h0
      decide
    · have h0b : (q == "") = false := beq_eq_false_iff_ne.mpr h0
      simp only [isValidQuestion, h0b, Bool.false_eq_true, if_false]
      by_cases h1 : (jsTrim q).length < 5
      · simp only [if_pos h1, Bool.false_eq_true, false_iff]
        rintro ⟨h5, -, -⟩
        omega
      · simp only [if_neg h1]
        by_cases h2 : (jsTrim q).length > 500
        · simp only [if_pos h2, Bool.false_eq_true, false_iff]
          rintro ⟨-, h500, -⟩
          omega
        · have h5 : 5 ≤ (jsTrim q).length := by omega
          have h500 : (jsTrim q).length ≤ 500 := by omega
          simp only [if_neg h2, h5, h500, true_and]
          simp [List.any_eq_true]
  · intro inp a q ha hne hva hq hqne hvq
    have hne2 : (a == "") = false := beq_eq_false_iff_ne.mpr hne
    have hqne2 : (q == "") = false := beq_eq_false_iff_ne.mpr hqne
    constructor <;>
      simp [postQuery, validateQueryRequest, ha, hne2, hva, hq, hqne2, hvq]

/-- C9 counterexample: "Hello there friend" has trimmed length 18, inside
the 5..500 range, yet fails validation — it contains neither a question
word nor a question mark, so "passes iff trimmed length in 5..500" is
false on the code. -/
theorem C9_counterexample :
    5 ≤ (jsTrim "Hello there friend").length ∧
    (jsTrim "Hello there friend").length ≤ 500 ∧
    isValidQuestion (some "Hello there friend") = false := by
  decide

def inpC9 : HandlerInput :=
  ⟨⟨some "DXB", some "Tell me about stuff", none⟩,
    .callError, .error ⟨none, false, "unused"⟩, .error ⟨none, false, "unused"⟩,
    .error ⟨none, false, "unused"⟩, 7, "ts0", "ft0"⟩

/-- C9 witness: a well-formed question passes the amended check, and a
non-empty question failing it is rejected with `INVALID_QUESTION_FORMAT`
with no downstream calls. -/
theorem C9_witness :
    isValidQuestion (some "How many flights from Germany?") = true ∧
    (postQuery inpC9).1 =
      ⟨400, .validationError
        "Please provide a valid question (minimum 5 characters, should be flight-related)"
        "INVALID_QUESTION_FORMAT" none⟩ ∧
    (postQuery inpC9).2 = ⟨false, false, false, false⟩ := by
  have h := C9_question_validation.2 inpC9 "DXB" "Tell me about stuff"
    rfl (by decide) (by decide) rfl (by decide) (by decide)
  exact ⟨(C9_question_validation.1 "How many flights from Germany?").mpr (by decide),
    h.1, h.2⟩

/-! ## Claim C10 -/

/-- C10: `getAirportSchedule` called with a mode outside
{"arrivals", "departures", "both"} issues no upstream HTTP call (both call
flags are false, the oracles are never examined) and returns successfully
with empty arrivals and departures and a fully populated result object. -/
theorem C10_unknown_mode (airportCode : String) (dayParam : Int) (mode : String)
    (arrOracle depOracle : Except UpstreamError RawPayload) (fetchedAt : String)
    (h1 : mode ≠ "both") (h2 : mode ≠ "arrivals") (h3 : mode ≠ "departures") :
    getAirportSchedule airportCode dayParam mode arrOracle depOracle fetchedAt =
      (.ok ⟨jsToUpper airportCode,
          if dayParam == 0 then 1 else dayParam,
          getDayLabel (if dayParam == 0 then 1 else dayParam),
          [], [], ⟨none, none⟩,
          ⟨0, 0, fetchedAt, "FlightAPI.io /schedule", mode, jsToUpper airportCode,
            if dayParam == 0 then 1 else dayParam⟩⟩,
        false, false) := by
  have h1b : (mode == "both") = false := beq_eq_false_iff_ne.mpr h1
  have h2b : (mode == "arrivals") = false := beq_eq_false_iff_ne.mpr h2
  have h3b : (mode == "departures") = false := beq_eq_false_iff_ne.mpr h3
  simp [getAirportSchedule, h1b, h2b, h3b, extractArrivals, extractDepartures]

/-- C10 witness: mode "none" issues no call (even with erroring oracles)
and returns the populated empty result. -/
theorem C10_witness :
    getAirportSchedule "DXB" 1 "none" (.error ⟨some 500, false, "boom"⟩)
        (.error ⟨some 500, false, "boom"⟩) "ft0" =
      (.ok ⟨"DXB", 1, "Today", [], [], ⟨none, none⟩,
        ⟨0, 0, "ft0", "FlightAPI.io /schedule", "none", "DXB", 1⟩⟩, false, false) := by
  have h := C10_unknown_mode "DXB" 1 "none" (.error ⟨some 500, false, "boom"⟩)
    (.error ⟨some 500, false, "boom"⟩) "ft0" (by decide) (by decide) (by decide)
  rw [h]
  decide

/-! ## Claim C3 -/

lemma jsTrim_of_supported {x : String}
    (h : x ∈ (["DXB", "LHR", "CDG", "SIN", "HKG", "AMS"] : List String)) :
    jsTrim x = x := by
  fin_cases h <;> decide

/-- A request that passes validation carries one of the six supported
airport codes (uppercased). -/
lemma validate_ok_airport {b : ReqBody} {s : Sanitized}
    (hv : validateQueryRequest b = .ok s) : s.airport ∈ supportedAirportsList := by
  unfold validateQueryRequest at hv
  split at hv
  · exact Except.noConfusion hv
  next airport hba =>
    split at hv
    · exact Except.noConfusion hv
    · split at hv
      · exact Except.noConfusion hv
      next hvalid =>
        have hc2 : isValidAirportCode airport = true := by simpa using hvalid
        have hmem : jsToUpper airport ∈ supportedAirportsList := by
          have h2 : (["DXB", "LHR", "CDG", "SIN", "HKG", "AMS"] : List String).elem
              (jsToUpper airport) = true := hc2
          simpa [supportedAirportsList] using List.elem_iff.mp h2
        have htrim : jsTrim (jsToUpper airport) = jsToUpper airport := by
          apply jsTrim_of_supported
          simpa [supportedAirportsList] using hmem
        split at hv
        · exact Except.noConfusion hv
        next question hbq =>
          split at hv
          · exact Except.noConfusion hv
          · split at hv
            · exact Except.noConfusion hv
            · split at hv
              next d hbd =>
                split at hv
                · exact Except.noConfusion hv
                · injection hv with h5
                  rw [← h5]
                  show jsTrim (jsToUpper airport) ∈ supportedAirportsList
                  rw [htrim]
                  exact hmem
              next hbd =>
                injection hv with h5
                rw [← h5]
                show jsTrim (jsToUpper airport) ∈ supportedAirportsList
                rw [htrim]
                exact hmem

/-- C3 (amended): every error raised by the Schedule Fetcher or the Answer
Generator is mapped by the handler's catch clause as follows — upstream
auth failure to 502 (`FLIGHT_API_ERROR`/`LLM_API_ERROR`), rate limiting to
429, timeout to 504, quota exhaustion and empty generation to 500, and
anything else without a recognized message substring to 500
`INTERNAL_ERROR`.  A fetcher not-found error (upstream 404, "Airport ...
not found") is NOT mapped to 404: the catch clause has no 404 branch, so
it also lands on 500 `INTERNAL_ERROR` (amending the claim, see the
counterexample).  The serialized body carries error, code, airport,
question and `metadata.responseTime`/`metadata.timestamp`. -/
theorem C3_error_taxonomy (inp : HandlerInput) (s : Sanitized)
    (hv : validateQueryRequest inp.body = .ok s)
    (hns : skipCheck (analyzeQuestionForMode s.question inp.classify) = false) :
    (∀ e : UpstreamError,
      (getAirportSchedule s.airport (jsDay s.date)
          ((analyzeQuestionForMode s.question inp.classify).mode.getD "both")
          inp.fetchArr inp.fetchDep inp.fetchedAt).1 =
        .error (fetchErrorMessage s.airport e) →
      (postQuery inp).1 = catchResponse (fetchErrorMessage s.airport e)
        s.airport s.question inp.elapsed inp.timestamp) ∧
    (∀ e : UpstreamError, e.status = some 401 →
      mapRouteError (fetchErrorMessage s.airport e) = (502, "FLIGHT_API_ERROR")) ∧
    (∀ e : UpstreamError, e.status = some 429 →
      mapRouteError (fetchErrorMessage s.airport e) = (429, "RATE_LIMIT_EXCEEDED")) ∧
    (∀ e : UpstreamError, e.status = some 404 →
      mapRouteError (fetchErrorMessage s.airport e) = (500, "INTERNAL_ERROR")) ∧
    (∀ e : UpstreamError, e.status = none → e.econnaborted = true →
      mapRouteError (fetchErrorMessage s.airport e) = (504, "REQUEST_TIMEOUT")) ∧
    (∀ m : String, strIncludes m "Invalid FlightAPI key" = false →
      strIncludes m "rate limit" = false → strIncludes m "timeout" = false →
      strIncludes m "Invalid OpenRouter" = false →
      mapRouteError m = (500, "INTERNAL_ERROR")) ∧
    (∀ (r : ScheduleResult) (msg : String),
      (getAirportSchedule s.airport (jsDay s.date)
          ((analyzeQuestionForMode s.question inp.classify).mode.getD "both")
          inp.fetchArr inp.fetchDep inp.fetchedAt).1 = .ok r →
      (r.arrivals.length == 0 && r.departures.length == 0) = false →
      generateAnswer s.question (processFlightData r) s.airport
        (analyzeQuestionForMode s.question inp.classify).mode
        (analyzeQuestionForMode s.question inp.classify) inp.generate = .error msg →
      (postQuery inp).1 = catchResponse msg s.airport s.question inp.elapsed inp.timestamp) ∧
    (∀ e : UpstreamError, e.status = some 401 →
      mapRouteError (llmErrorMessage e) = (502, "LLM_API_ERROR")) ∧
    (∀ e : UpstreamError, e.status = some 429 →
      mapRouteError (llmErrorMessage e) = (429, "RATE_LIMIT_EXCEEDED")) ∧
    (∀ e : UpstreamError, e.status = some 402 →
      mapRouteError (llmErrorMessage e) = (500, "INTERNAL_ERROR")) ∧
    (∀ e : UpstreamError, e.status = none → e.econnaborted = true →
      mapRouteError (llmErrorMessage e) = (504, "REQUEST_TIMEOUT")) ∧
    (∀ (q2 : String) (pd : ProcessedData) (a2 : String) (m2 : Option String)
        (ma2 : ModeAnalysis) (content : Option String), jsTruthy content = false →
      generateAnswer q2 pd a2 m2 ma2 (.ok content) =
        .error ("Failed to generate answer: " ++ "No answer generated by LLM") ∧
      mapRouteError ("Failed to generate answer: " ++ "No answer generated by LLM") =
        (500, "INTERNAL_ERROR")) ∧
    (∀ (m a2 q2 : String) (t : Nat) (ts : String),
      catchResponse m a2 q2 t ts =
        ⟨(mapRouteError m).1,
          .queryFailure m (mapRouteError m).2 a2 q2 ⟨toString t ++ "ms", ts⟩⟩) := by
  have hsix : s.airport = "DXB" ∨ s.airport = "LHR" ∨ s.airport = "CDG" ∨
      s.airport = "SIN" ∨ s.airport = "HKG" ∨ s.airport = "AMS" := by
    simpa [supportedAirportsList] using validate_ok_airport hv
  refine ⟨?_, ?_, ?_, ?_, ?_, ?_, ?_, ?_, ?_, ?_, ?_, ?_, ?_⟩
  · intro e hferr
    simp [postQuery, hv, postQueryValidated, hns, fetchStage, hferr]
  · intro e he
    simp [fetchErrorMessage, he]
    decide
  · intro e he
    simp [fetchErrorMessage, he]
    decide
  · intro e he
    simp [fetchErrorMessage, he]
    rcases hsix with h | h | h | h | h | h <;> rw [h] <;> decide
  · intro e he1 he2
    simp [fetchErrorMessage, he1, he2]
    decide
  · intro m h1 h2 h3 h4
    simp [mapRouteError, h1, h2, h3, h4]
  · intro r msg hok hne hgen
    simp [postQuery, hv, postQueryValidated, hns, fetchStage, hok, okStage, hne,
      genStage, hgen]
  · intro e he
    simp [llmErrorMessage, he]
    decide
  · intro e he
    simp [llmErrorMessage, he]
    decide
  · intro e he
    simp [llmErrorMessage, he]
    decide
  · intro e he1 he2
    simp [llmErrorMessage, he1, he2]
    decide
  · intro q2 pd a2 m2 ma2 content hc
    exact ⟨by simp [generateAnswer, hc], by decide⟩
  · intro m a2 q2 t ts
    rfl

def inpC3 : HandlerInput :=
  ⟨⟨some "dxb", some "How many flights from Germany?", none⟩,
    .parsed ⟨some true, some "arrivals", none, none, false⟩,
    .error ⟨some 404, false, "Request failed with status code 404"⟩,
    .error ⟨some 404, false, "Request failed with status code 404"⟩,
    .error ⟨none, false, "unused"⟩, 7, "ts0", "ft0"⟩

/-- C3 counterexample: when the upstream flight API answers 404 (airport
not found / no data), the fetcher's "Airport DXB not found or no data
available." error is mapped by the catch clause to 500 `INTERNAL_ERROR`,
not to 404 as the claim states. -/
theorem C3_counterexample :
    (postQuery inpC3).1.status = 500 ∧
    (postQuery inpC3).1.status ≠ 404 ∧
    (postQuery inpC3).1.body =
      .queryFailure "Airport DXB not found or no data available." "INTERNAL_ERROR"
        "DXB" "How many flights from Germany?" ⟨"7ms", "ts0"⟩ := by
  decide

def inpC3W : HandlerInput :=
  ⟨⟨some "dxb", some "How many flights from Germany?", none⟩,
    .parsed ⟨some true, some "arrivals", none, none, false⟩,
    .error ⟨some 401, false, "Request failed with status code 401"⟩,
    .error ⟨some 401, false, "Request failed with status code 401"⟩,
    .error ⟨none, false, "unused"⟩, 7, "ts0", "ft0"⟩

def sC3 : Sanitized := ⟨"DXB", "How many flights from Germany?", none⟩

/-- C3 witness: a fetcher auth failure surfaces as 502 `FLIGHT_API_ERROR`
with the full failure body. -/
theorem C3_witness :
    (postQuery inpC3W).1.status = 502 ∧
    (postQuery inpC3W).1.body =
      .queryFailure "Invalid FlightAPI key. Please check your API configuration."
        "FLIGHT_API_ERROR" "DXB" "How many flights from Germany?" ⟨"7ms", "ts0"⟩ := by
  have h := C3_error_taxonomy inpC3W sC3 (by decide) (by decide)
  have h1 := h.1 ⟨some 401, false, "Request failed with status code 401"⟩ (by decide)
  constructor
  · rw [h1]; decide
  · rw [h1]; decide

end FlightApp
